import Mathlib

/-!
Verification of the event-driven notification dispatch engine
(`backend/src/services/notification.js`): event classification,
AI-rule prioritization, per-recipient rate limiting, batch scheduling,
channel fan-out and sender isolation.

JavaScript objects are modelled as association lists of `String × Val`
where lookup returns the first matching key (so the spread
`{...obj, k: v}` is modelled by prepending the overriding entries).
Timestamps (`Date.now()`) are `Int` milliseconds passed explicitly.
-/

namespace NotifSys

/-- A JavaScript runtime value (the fragment the service manipulates):
`undefined`, `null`, booleans, integer numbers, strings and objects. -/
inductive Val where
  | vUndef : Val
  | vNull : Val
  | vBool : Bool → Val
  | vNum : Int → Val
  | vStr : String → Val
  | vObj : List (String × Val) → Val

/-- A JS object: association list, first binding of a key wins on lookup. -/
abbrev Obj := List (String × Val)

mutual

/-- Structural equality test on values (used as the `Map` key comparison). -/
def Val.beq : Val → Val → Bool
  | Val.vUndef, Val.vUndef => true
  | Val.vNull, Val.vNull => true
  | Val.vBool a, Val.vBool b => a == b
  | Val.vNum a, Val.vNum b => a == b
  | Val.vStr a, Val.vStr b => a == b
  | Val.vObj a, Val.vObj b => Val.beqFields a b
  | _, _ => false

/-- Pointwise structural equality of object field lists. -/
def Val.beqFields : List (String × Val) → List (String × Val) → Bool
  | [], [] => true
  | (k, v) :: t, (k', v') :: t' => k == k' && Val.beq v v' && Val.beqFields t t'
  | _, _ => false

end

instance : BEq Val := ⟨Val.beq⟩

/-- Property access `obj[k]`: the first binding of `k`, `undefined` if absent. -/
def getD (obj : Obj) (k : String) : Val :=
  match obj.find? (fun p => p.1 == k) with
  | some p => p.2
  | none => Val.vUndef

/-- JS truthiness of a value (`undefined`, `null`, `false`, `0`, `""` are falsy). -/
def jsTruthy : Val → Bool
  | Val.vUndef => false
  | Val.vNull => false
  | Val.vBool b => b
  | Val.vNum n => n != 0
  | Val.vStr s => s != ""
  | Val.vObj _ => true

/-- JS `ToNumber` on the modelled fragment: `none` stands for `NaN`. -/
def jsToNumber : Val → Option Int
  | Val.vUndef => none
  | Val.vNull => some 0
  | Val.vBool b => some (if b then 1 else 0)
  | Val.vNum n => some n
  | Val.vStr s => s.toInt?
  | Val.vObj _ => none

/-- JS comparison `v > k` for a numeric literal `k` (NaN comparisons are false). -/
def jsGtNum (v : Val) (k : Int) : Bool :=
  match jsToNumber v with
  | some n => n > k
  | none => false

/-- JS `v?.includes(sub)` for the optional-chained string test on `clientName`. -/
def jsStrIncludes (v : Val) (sub : String) : Bool :=
  match v with
  | Val.vStr s => (s.splitOn sub).length > 1
  | _ => false

/-- The delivery channels (`NotificationChannels` in the source). -/
inductive Channel where
  | in_app : Channel
  | email : Channel
  | slack : Channel
  | teams : Channel
deriving DecidableEq, Repr, Inhabited

/-- Notification priorities (`NotificationPriorities`): LOW=1 … CRITICAL=5. -/
def LOW : Nat := 1
def MEDIUM : Nat := 2
def HIGH : Nat := 3
def URGENT : Nat := 4
def CRITICAL : Nat := 5

/-- A classified notification (the record built by `generateNotification`). -/
structure Notification where
  id : String
  type : String
  timestamp : String
  data : Obj
  title : String
  message : String
  priority : Nat
  channels : List Channel
  metadata : Obj
  userId : Val := Val.vUndef

/-- Event-type strings of the `switch` in `generateNotification` that have a
dedicated case (the remaining members of `NotificationTypes` fall through to
the `default` branch like any unknown string). -/
def handledEventTypes : List String :=
  ["proposal_created", "proposal_approved", "proposal_submitted",
   "task_assigned", "deadline_alert", "compliance_low",
   "ai_draft_generated", "escalation"]

/-- JS `s || "Unknown"` fallback used for `?.full_name` interpolations. -/
def strOrUnknown (v : Val) : String :=
  match v with
  | Val.vStr s => if s = "" then "Unknown" else s
  | _ => "Unknown"

/-- String interpolation of a value (only the string shape matters here). -/
def valToStr (v : Val) : String :=
  match v with
  | Val.vStr s => s
  | Val.vNum n => toString n
  | Val.vBool b => toString b
  | Val.vNull => "null"
  | Val.vUndef => "undefined"
  | Val.vObj _ => "[object Object]"

/-- JS `NotificationService.generateNotification(eventType, data)`: builds the
base record, then the `switch` on `eventType`; the `default` branch yields a
LOW-priority in-app-only notification whose metadata is the raw payload.
`timestamp` and `id` (wall clock / randomness) are passed in explicitly. -/
def generateNotification (eventType : String) (data : Obj)
    (timestamp : String) (id : String) : Notification :=
  let baseData : Obj := ("generatedAt", Val.vStr timestamp) :: data
  if eventType = "proposal_created" then
    { id := id, type := eventType, timestamp := timestamp, data := baseData
      title := "Proposal Created: " ++ valToStr (getD data "title")
      message := "New proposal \"" ++ valToStr (getD data "title") ++ "\" created by "
        ++ strOrUnknown (getD (objOf (getD data "createdBy")) "full_name")
      priority := MEDIUM
      channels := [Channel.in_app, Channel.email]
      metadata := [("proposalId", getD data "proposalId"),
                   ("category", getD data "category"),
                   ("clientName", getD data "clientName"),
                   ("estimatedValue", getD data "estimatedValue")] }
  else if eventType = "proposal_approved" then
    { id := id, type := eventType, timestamp := timestamp, data := baseData
      title := "Proposal Approved: " ++ valToStr (getD data "title")
      message := "Proposal \"" ++ valToStr (getD data "title") ++ "\" has been approved by "
        ++ strOrUnknown (getD (objOf (getD data "approvedBy")) "full_name")
      priority := HIGH
      channels := [Channel.in_app, Channel.email, Channel.slack]
      metadata := [("proposalId", getD data "proposalId"),
                   ("approvedBy", getD data "approvedBy"),
                   ("approvedAt", getD data "approvedAt")] }
  else if eventType = "proposal_submitted" then
    { id := id, type := eventType, timestamp := timestamp, data := baseData
      title := "Proposal Submitted: " ++ valToStr (getD data "title")
      message := "Proposal \"" ++ valToStr (getD data "title") ++ "\" has been submitted to client"
      priority := HIGH
      channels := [Channel.in_app, Channel.email, Channel.teams]
      metadata := [("proposalId", getD data "proposalId"),
                   ("submittedAt", getD data "submittedAt")] }
  else if eventType = "task_assigned" then
    { id := id, type := eventType, timestamp := timestamp, data := baseData
      title := "Task Assigned: " ++ valToStr (getD data "title")
      message := "Task \"" ++ valToStr (getD data "title") ++ "\" assigned to "
        ++ strOrUnknown (getD (objOf (getD data "assignedTo")) "full_name")
      priority := MEDIUM
      channels := [Channel.in_app, Channel.email]
      metadata := [("taskId", getD data "taskId"),
                   ("assignedTo", getD data "assignedTo"),
                   ("dueDate", getD data "dueDate"),
                   ("priority", getD data "priority")] }
  else if eventType = "deadline_alert" then
    { id := id, type := eventType, timestamp := timestamp, data := baseData
      title := "Deadline Alert: " ++ valToStr (getD data "taskTitle")
      message := "Task \"" ++ valToStr (getD data "taskTitle") ++ "\" is due soon or overdue!"
      priority := URGENT
      channels := [Channel.in_app, Channel.email, Channel.slack]
      metadata := [("taskId", getD data "taskId"),
                   ("dueDate", getD data "dueDate"),
                   ("overdue", getD data "overdue")] }
  else if eventType = "compliance_low" then
    { id := id, type := eventType, timestamp := timestamp, data := baseData
      title := "Low Compliance Score: " ++ valToStr (getD data "proposalTitle")
      message := "Proposal \"" ++ valToStr (getD data "proposalTitle")
        ++ "\" has low compliance score: " ++ valToStr (getD data "score") ++ "/100"
      priority := HIGH
      channels := [Channel.in_app, Channel.email]
      metadata := [("proposalId", getD data "proposalId"),
                   ("score", getD data "score"),
                   ("issues", getD data "issues")] }
  else if eventType = "ai_draft_generated" then
    { id := id, type := eventType, timestamp := timestamp, data := baseData
      title := "AI Draft Generated: " ++ valToStr (getD data "proposalTitle")
      message := "AI draft generated for proposal \"" ++ valToStr (getD data "proposalTitle") ++ "\""
      priority := MEDIUM
      channels := [Channel.in_app, Channel.email]
      metadata := [("proposalId", getD data "proposalId"),
                   ("aiModel", getD data "aiModel"),
                   ("confidence", getD data "confidence")] }
  else if eventType = "escalation" then
    { id := id, type := eventType, timestamp := timestamp, data := baseData
      title := "Escalation Required: " ++ valToStr (getD data "title")
      message := "Escalation required for: " ++ valToStr (getD data "description")
      priority := CRITICAL
      channels := [Channel.in_app, Channel.email, Channel.slack, Channel.teams]
      metadata := [("escalationType", getD data "escalationType"),
                   ("reason", getD data "reason"),
                   ("escalatedTo", getD data "escalatedTo")] }
  else
    { id := id, type := eventType, timestamp := timestamp, data := baseData
      title := "Notification: " ++ eventType
      message := "Event occurred: " ++ eventType
      priority := LOW
      channels := [Channel.in_app]
      metadata := data }
where
  /-- JS `v?.k` on a possibly-non-object value: fields of non-objects are absent. -/
  objOf : Val → Obj
    | Val.vObj o => o
    | _ => []

/-! ## AI prioritizer (`AIPrioritizer`) -/

/-- One prioritization rule: `{condition, adjustment, reason}`. -/
structure Rule where
  condition : Notification → Bool
  adjustment : Nat
  reason : String

/-- The ordered rule list built in the `AIPrioritizer` constructor. -/
def aiRules : List Rule :=
  [ { condition := fun n => n.priority == CRITICAL
      adjustment := 2
      reason := "Critical priority escalation" },
    { condition := fun n => n.type == "escalation"
      adjustment := 2
      reason := "Escalation event" },
    { condition := fun n => n.type == "deadline_alert"
      adjustment := 1
      reason := "Deadline alert" },
    { condition := fun n => n.type == "compliance_low"
      adjustment := 1
      reason := "Low compliance score" },
    { condition := fun n => jsGtNum (getD n.data "estimatedValue") 1000000
      adjustment := 1
      reason := "High value proposal" },
    { condition := fun n => jsStrIncludes (getD n.metadata "clientName") "Strategic"
      adjustment := 1
      reason := "Strategic client" } ]

/-- The loop body of `AIPrioritizer.prioritize`: walk the rules in order,
apply the first whose condition holds (`break` after the first match),
capping the raised priority at CRITICAL and recording
`prioritizationReason` / `originalPriority` in the metadata. -/
def applyRules (rules : List Rule) (n : Notification) : Notification :=
  match rules with
  | [] => n
  | r :: rest =>
    if r.condition n then
      { n with
        priority := min (n.priority + r.adjustment) CRITICAL
        metadata := ("originalPriority", Val.vNum (n.priority : Int)) ::
                    ("prioritizationReason", Val.vStr r.reason) :: n.metadata }
    else applyRules rest n

/-- JS `AIPrioritizer.prioritize(notification)`. -/
def prioritize (n : Notification) : Notification :=
  applyRules aiRules n

/-! ## Rate limiter (`isRateLimited` / `getMinInterval`) -/

/-- One entry of the `rateLimiters` map:
`{lastNotification: Date.now(), count}`. -/
structure RateLimitEntry where
  lastNotification : Int
  count : Nat
deriving DecidableEq, Repr

/-- The `rateLimiters` map: JS `Map` keyed by the user id value. -/
abbrev RateMap := List (Val × RateLimitEntry)

/-- JS `Map.get`: first entry for the key, if any. -/
def mapGet (m : RateMap) (k : Val) : Option RateLimitEntry :=
  match m.find? (fun p => p.1 == k) with
  | some p => some p.2
  | none => none

/-- JS `Map.set`: replace the entry for the key, or append a new one. -/
def mapSet (m : RateMap) (k : Val) (e : RateLimitEntry) : RateMap :=
  match m with
  | [] => [(k, e)]
  | (k', e') :: rest =>
    if k' == k then (k', e) :: rest else (k', e') :: mapSet rest k e

/-- JS `NotificationService.getMinInterval(priority)`: the fixed table with
`intervals[priority] || intervals[LOW]` fallback (milliseconds). -/
def getMinInterval (priority : Nat) : Nat :=
  if priority = LOW then 60000
  else if priority = MEDIUM then 30000
  else if priority = HIGH then 15000
  else if priority = URGENT then 5000
  else if priority = CRITICAL then 1000
  else 60000

/-- JS `notification.userId || notification.data?.userId`, the rate-limit key;
`none` when both are falsy (rate limiting is skipped). -/
def rateKey (n : Notification) : Option Val :=
  if jsTruthy n.userId then some n.userId
  else if jsTruthy (getD n.data "userId") then some (getD n.data "userId")
  else none

/-- JS `NotificationService.isRateLimited(notification)` as a pure transition on
the `rateLimiters` map: returns the boolean verdict and the updated map
(`Date.now()` passed as `now`).  On a missing key or on rejection the map is
untouched; on admission the entry becomes `{lastNotification := now, count + 1}`. -/
def isRateLimited (limits : RateMap) (n : Notification) (now : Int) :
    Bool × RateMap :=
  match rateKey n with
  | none => (false, limits)
  | some uid =>
    match mapGet limits uid with
    | some e =>
      if now - e.lastNotification < (getMinInterval n.priority : Int) then
        (true, limits)
      else
        (false, mapSet limits uid ⟨now, e.count + 1⟩)
    | none => (false, mapSet limits uid ⟨now, 1⟩)

/-! ## Dispatch queue, batch scheduler and publish -/

/-- JS `this.batchSize = 10`. -/
def batchSize : Nat := 10

/-- The mutable engine state touched by `publish` and `processBatch`:
the FIFO `notificationQueue`, the `rateLimiters` map, and whether a
`batchTimer` is currently pending. -/
structure EngineState where
  queue : List Notification
  limits : RateMap
  timerArmed : Bool

/-- The empty engine state right after construction. -/
def initialState : EngineState :=
  { queue := [], limits := [], timerArmed := false }

/-- JS `NotificationService.publish(eventType, data)` as a pure transition:
classify, prioritize, rate-limit; a rate-limited notification is dropped
(state unchanged), otherwise it is appended to the queue and a batch timer
is armed if none is pending.  Returns the emitted notification, if any.
`publish` itself never flushes the queue. -/
def publish (s : EngineState) (eventType : String) (data : Obj)
    (now : Int) (timestamp : String) (id : String) :
    EngineState × Option Notification :=
  let n := generateNotification eventType data timestamp id
  let pn := prioritize n
  match isRateLimited s.limits pn now with
  | (true, limits') => ({ s with limits := limits' }, none)
  | (false, limits') =>
    ({ queue := s.queue ++ [pn], limits := limits', timerArmed := true }, some pn)

/-- JS `NotificationService.processBatch` restricted to its queue effect:
an empty queue returns immediately (a no-op); otherwise
`splice(0, batchSize)` pops the `batchSize` oldest notifications FIFO and,
if items remain, `scheduleBatchProcessing()` re-arms the timer.
Returns the popped batch. -/
def processBatch (s : EngineState) : EngineState × List Notification :=
  if s.queue.isEmpty then (s, [])
  else
    let batch := s.queue.take batchSize
    let rest := s.queue.drop batchSize
    ({ s with queue := rest, timerArmed := if rest.isEmpty then s.timerArmed else true },
     batch)

/-! ## Channel router (`groupBatchByChannel`, `processChannelBatch`) -/

/-- Append a notification to the group of a channel, preserving the `Map`
insertion order of channels (`grouped.get(channel).push(notification)`). -/
def addToGroup (grouped : List (Channel × List Notification))
    (c : Channel) (n : Notification) : List (Channel × List Notification) :=
  match grouped with
  | [] => [(c, [n])]
  | (c', l) :: rest =>
    if c' = c then (c', l ++ [n]) :: rest else (c', l) :: addToGroup rest c n

/-- JS `NotificationService.groupBatchByChannel(batch)`: for each notification,
for each of its target channels, push it onto the sub-batch of that channel. -/
def groupBatchByChannel (batch : List Notification) :
    List (Channel × List Notification) :=
  batch.foldl (fun g n => n.channels.foldl (fun g' c => addToGroup g' c n) g) []

/-- Sub-batch of a channel in a grouped batch (`[]` when the key is absent). -/
def groupLookup : List (Channel × List Notification) → Channel → List Notification
  | [], _ => []
  | (c', l) :: rest, c => if c' = c then l else groupLookup rest c

/-- Whether a grouped batch has an entry for the channel. -/
def hasChannel : List (Channel × List Notification) → Channel → Bool
  | [], _ => false
  | (c', _) :: rest, c => if c' = c then true else hasChannel rest c

/-- The comparator `(a, b) => b.priority - a.priority`: `a` may precede `b`
iff `b.priority ≤ a.priority` (descending order). -/
def prioGE (a b : Notification) : Prop := b.priority ≤ a.priority

instance : DecidableRel prioGE := fun a b => Nat.decLe b.priority a.priority

instance : IsTotal Notification prioGE :=
  ⟨fun a b => Nat.le_total b.priority a.priority⟩

instance : IsTrans Notification prioGE :=
  ⟨fun _ _ _ h h' => Nat.le_trans h' h⟩

/-- JS `notifications.sort((a, b) => b.priority - a.priority)`: JS `sort` is
stable, modelled by a stable insertion sort into descending priority. -/
def sortByPriorityDesc (l : List Notification) : List Notification :=
  List.insertionSort prioGE l

/-- Outcome of handing the sub-batch of one channel to its sender. -/
inductive SendOutcome where
  | skipped : SendOutcome
  | sent : SendOutcome
  | failed : String → SendOutcome
deriving DecidableEq, Repr

/-- A registry of channel senders (`this.channels` map): `none` models an
unregistered channel; a sender either succeeds or raises an error message. -/
abbrev SenderMap := Channel → Option (List Notification → Except String Unit)

/-- JS `NotificationService.processChannelBatch(channel, notifications)`:
a missing channel is skipped with a logged warning; otherwise the sub-batch
is sorted by priority descending and handed to the sender, whose error is
caught and logged — the function itself never raises. -/
def processChannelBatch (senders : SenderMap) (c : Channel)
    (notifications : List Notification) : SendOutcome :=
  match senders c with
  | none => SendOutcome.skipped
  | some sender =>
    match sender (sortByPriorityDesc notifications) with
    | Except.ok _ => SendOutcome.sent
    | Except.error e => SendOutcome.failed e

/-- The fan-out loop of `processBatch`: group the flushed batch by channel
and process the sub-batch of every channel, collecting each outcome. -/
def routeBatch (senders : SenderMap) (batch : List Notification) :
    List (Channel × SendOutcome) :=
  (groupBatchByChannel batch).map
    (fun p => (p.1, processChannelBatch senders p.1 p.2))

/-- Outcome recorded for a channel by `routeBatch`, if that channel received
a sub-batch in this flush. -/
def outcomeAt : List (Channel × SendOutcome) → Channel → Option SendOutcome
  | [], _ => none
  | (c', o) :: rest, c => if c' = c then some o else outcomeAt rest c

/-- Outcome of one send attempt (success, or a caught and logged error). -/
def sendOutcomeOf : Except String Unit → SendOutcome
  | Except.ok _ => SendOutcome.sent
  | Except.error e => SendOutcome.failed e

/-! ## Helper lemmas -/

/-- The first rule of an ordered list whose condition holds on `n`, if any
(the rule selected by the short-circuiting loop in `prioritize`). -/
def firstMatch (rules : List Rule) (n : Notification) : Option Rule :=
  match rules with
  | [] => none
  | r :: rest => if r.condition n then some r else firstMatch rest n

/-- If no rule condition holds, the rule loop returns the input unchanged. -/
theorem applyRules_eq_of_firstMatch_none (rules : List Rule) (n : Notification)
    (h : firstMatch rules n = none) :
    applyRules rules n = n := by
  induction rules with
  | nil => rfl
  | cons r rest ih =>
    by_cases hc : r.condition n
    · simp [firstMatch, hc] at h
    · rw [firstMatch, if_neg hc] at h
      simpa [applyRules, hc] using ih h

/-- The rule loop applies exactly the first rule whose condition holds. -/
theorem applyRules_eq_of_firstMatch_some (rules : List Rule) (n : Notification)
    (r : Rule) (h : firstMatch rules n = some r) :
    applyRules rules n =
      { n with
        priority := min (n.priority + r.adjustment) CRITICAL
        metadata := ("originalPriority", Val.vNum (n.priority : Int)) ::
                    ("prioritizationReason", Val.vStr r.reason) :: n.metadata } := by
  induction rules with
  | nil => simp [firstMatch] at h
  | cons r0 rest ih =>
    by_cases hc : r0.condition n
    · rw [firstMatch, if_pos hc] at h
      cases h
      simp [applyRules, hc]
    · rw [firstMatch, if_neg hc] at h
      simpa [applyRules, hc] using ih h

/-- Priority is never lowered and never exceeds CRITICAL across the rule loop. -/
theorem applyRules_priority_bounds (rules : List Rule) (n : Notification)
    (h : n.priority ≤ CRITICAL) :
    n.priority ≤ (applyRules rules n).priority ∧
      (applyRules rules n).priority ≤ CRITICAL := by
  induction rules with
  | nil => exact ⟨Nat.le_refl _, h⟩
  | cons r rest ih =>
    by_cases hc : r.condition n
    · simp only [applyRules, hc, if_pos]
      exact ⟨Nat.le_min.mpr ⟨Nat.le_add_right _ _, h⟩, Nat.min_le_right _ _⟩
    · simpa [applyRules, hc] using ih

/-! ## Claim theorems -/

/-- C1.  Every `publish(eventType, data)` classifies into exactly one
Notification, whatever the event type; an event type outside the handled
enumeration falls to the `default` branch: priority LOW (1), channel set
exactly `{in-app}`, and the raw payload as metadata. -/
theorem C1_classifier_total_coverage (eventType : String) (data : Obj)
    (timestamp : String) (id : String) :
    (∃! n : Notification, generateNotification eventType data timestamp id = n) ∧
    (eventType ∉ handledEventTypes →
      (generateNotification eventType data timestamp id).priority = LOW ∧
      (generateNotification eventType data timestamp id).channels = [Channel.in_app] ∧
      (generateNotification eventType data timestamp id).metadata = data) := by
  constructor
  · exact ⟨generateNotification eventType data timestamp id, rfl, fun y hy => hy.symm⟩
  · intro h
    simp only [handledEventTypes, List.mem_cons, List.not_mem_nil, or_false,
      not_or] at h
    obtain ⟨h1, h2, h3, h4, h5, h6, h7, h8⟩ := h
    simp [generateNotification, h1, h2, h3, h4, h5, h6, h7, h8]

/-- Closed witness for C1 at the unrecognized event type `"mystery_event"`. -/
theorem C1_classifier_total_coverage_witness :
    (generateNotification "mystery_event" [("k", Val.vNum 7)] "t0" "id0").priority = LOW ∧
    (generateNotification "mystery_event" [("k", Val.vNum 7)] "t0" "id0").channels
      = [Channel.in_app] ∧
    (generateNotification "mystery_event" [("k", Val.vNum 7)] "t0" "id0").metadata
      = [("k", Val.vNum 7)] :=
  (C1_classifier_total_coverage "mystery_event" [("k", Val.vNum 7)] "t0" "id0").2
    (by decide)

/-- C4.  `prioritize` applies exactly the first rule of the ordered list whose
condition holds and no later rule: the result raises the priority by that
rule delta capped at CRITICAL and prepends `prioritizationReason` (that rule
only) and `originalPriority` to the metadata; if no rule condition holds the
notification is returned unchanged. -/
theorem C4_first_match_wins (n : Notification) :
    (firstMatch aiRules n = none → prioritize n = n) ∧
    (∀ r : Rule, firstMatch aiRules n = some r →
      prioritize n =
        { n with
          priority := min (n.priority + r.adjustment) CRITICAL
          metadata := ("originalPriority", Val.vNum (n.priority : Int)) ::
                      ("prioritizationReason", Val.vStr r.reason) :: n.metadata }) :=
  ⟨fun h => applyRules_eq_of_firstMatch_none aiRules n h,
   fun r h => applyRules_eq_of_firstMatch_some aiRules n r h⟩

/-- Closed witness for C4: a notification matching both the CRITICAL rule and
the escalation rule gets exactly the first rule (delta +2 capped, reason of
rule one only). -/
theorem C4_first_match_wins_witness :
    (prioritize { id := "a", type := "escalation", timestamp := "t", data := [],
                  title := "", message := "", priority := 5,
                  channels := [Channel.in_app], metadata := [] }).priority = 5 ∧
    getD (prioritize { id := "a", type := "escalation", timestamp := "t", data := [],
                       title := "", message := "", priority := 5,
                       channels := [Channel.in_app], metadata := [] }).metadata
      "prioritizationReason" = Val.vStr "Critical priority escalation" := by
  have hfind : firstMatch aiRules
      { id := "a", type := "escalation", timestamp := "t", data := [],
        title := "", message := "", priority := 5,
        channels := [Channel.in_app], metadata := [] }
      = some { condition := fun n : Notification => n.priority == CRITICAL,
               adjustment := 2, reason := "Critical priority escalation" } := by
    rw [aiRules, firstMatch]
    rfl
  rw [(C4_first_match_wins _).2 _ hfind]
  exact ⟨rfl, rfl⟩

/-- C5.  For every notification with a valid priority, the priority after
`prioritize` is at least the priority before and at most CRITICAL (5). -/
theorem C5_priority_monotone (n : Notification) (h : n.priority ≤ CRITICAL) :
    n.priority ≤ (prioritize n).priority ∧ (prioritize n).priority ≤ CRITICAL :=
  applyRules_priority_bounds aiRules n h

/-- Closed witness for C5 at a concrete deadline-alert notification. -/
theorem C5_priority_monotone_witness :
    let n : Notification :=
      { id := "a", type := "deadline_alert", timestamp := "t", data := [],
        title := "", message := "", priority := 4,
        channels := [Channel.in_app], metadata := [] }
    n.priority ≤ (prioritize n).priority ∧ (prioritize n).priority ≤ CRITICAL :=
  C5_priority_monotone _ (by decide)

/-- C10.  A notification that is already CRITICAL always matches the first
rule: priority stays 5, metadata always gains
`prioritizationReason = "Critical priority escalation"` (never the reason of
the later escalation rule) and `originalPriority = 5`, so its metadata is
never left unchanged; and every escalation event classifies at base priority
CRITICAL. -/
theorem C10_critical_always_tagged (n : Notification) (h : n.priority = CRITICAL) :
    (prioritize n).priority = CRITICAL ∧
    getD (prioritize n).metadata "prioritizationReason"
      = Val.vStr "Critical priority escalation" ∧
    getD (prioritize n).metadata "originalPriority" = Val.vNum 5 ∧
    (prioritize n).metadata ≠ n.metadata ∧
    (∀ (data : Obj) (ts id : String),
      (generateNotification "escalation" data ts id).priority = CRITICAL) := by
  have hc : ({ condition := fun n : Notification => n.priority == CRITICAL,
               adjustment := 2,
               reason := "Critical priority escalation" : Rule }.condition) n = true := by
    simp [h]
  have hfind : firstMatch aiRules n
      = some { condition := fun n : Notification => n.priority == CRITICAL,
               adjustment := 2, reason := "Critical priority escalation" } := by
    rw [aiRules, firstMatch, if_pos hc]
  have heq := applyRules_eq_of_firstMatch_some aiRules n _ hfind
  rw [show prioritize n = applyRules aiRules n from rfl, heq]
  refine ⟨by simp [h, CRITICAL], rfl, by simp [h, getD, CRITICAL], ?_,
    fun data ts id => rfl⟩
  intro habs
  have := congrArg List.length habs
  simp only [List.length_cons] at this
  omega

/-- Closed witness for C10 at a concrete CRITICAL escalation notification. -/
theorem C10_critical_always_tagged_witness :
    let n : Notification :=
      { id := "a", type := "escalation", timestamp := "t", data := [],
        title := "", message := "", priority := 5,
        channels := [Channel.in_app], metadata := [("reason", Val.vStr "SLA")] }
    (prioritize n).priority = CRITICAL ∧
    getD (prioritize n).metadata "prioritizationReason"
      = Val.vStr "Critical priority escalation" :=
  ⟨(C10_critical_always_tagged _ rfl).1, (C10_critical_always_tagged _ rfl).2.1⟩

/-- A rate-limited verdict leaves the `rateLimiters` map untouched. -/
theorem isRateLimited_true_eq (limits : RateMap) (n : Notification) (now : Int)
    (h : (isRateLimited limits n now).1 = true) :
    isRateLimited limits n now = (true, limits) := by
  cases hk : rateKey n with
  | none => simp [isRateLimited, hk] at h
  | some uid =>
    cases hg : mapGet limits uid with
    | none => simp [isRateLimited, hk, hg] at h
    | some e =>
      by_cases hlt : now - e.lastNotification < (getMinInterval n.priority : Int)
      · simp [isRateLimited, hk, hg, hlt]
      · simp [isRateLimited, hk, hg, hlt] at h

/-- C2.  The rate-limit gate: an absent recipient key always admits and
creates no rate state; with an existing entry the gate rejects exactly when
`now − lastAdmittedAt` is strictly below the fixed priority interval table
(LOW 60s, MEDIUM 30s, HIGH 15s, URGENT 5s, CRITICAL 1s), leaving the state
unchanged on rejection; a recipient with no entry is admitted; admission
records `lastAdmittedAt = now` and bumps the count; and a rejected
notification is dropped by `publish` — not enqueued. -/
theorem C2_rate_limit_gate (limits : RateMap) (n : Notification) (now : Int) :
    (rateKey n = none → isRateLimited limits n now = (false, limits)) ∧
    (∀ uid : Val, rateKey n = some uid →
      (mapGet limits uid = none →
        isRateLimited limits n now = (false, mapSet limits uid ⟨now, 1⟩)) ∧
      (∀ e : RateLimitEntry, mapGet limits uid = some e →
        ((isRateLimited limits n now).1 = true ↔
          now - e.lastNotification < (getMinInterval n.priority : Int)) ∧
        (now - e.lastNotification < (getMinInterval n.priority : Int) →
          isRateLimited limits n now = (true, limits)) ∧
        ((getMinInterval n.priority : Int) ≤ now - e.lastNotification →
          isRateLimited limits n now
            = (false, mapSet limits uid ⟨now, e.count + 1⟩)))) ∧
    (getMinInterval LOW = 60000 ∧ getMinInterval MEDIUM = 30000 ∧
     getMinInterval HIGH = 15000 ∧ getMinInterval URGENT = 5000 ∧
     getMinInterval CRITICAL = 1000) ∧
    (∀ (s : EngineState) (et : String) (data : Obj) (ts id : String),
      s.limits = limits →
      (isRateLimited limits (prioritize (generateNotification et data ts id)) now).1
        = true →
      (publish s et data now ts id).1.queue = s.queue ∧
      (publish s et data now ts id).1.limits = s.limits ∧
      (publish s et data now ts id).2 = none) := by
  refine ⟨?_, ?_, ⟨rfl, rfl, rfl, rfl, rfl⟩, ?_⟩
  · intro hk
    simp [isRateLimited, hk]
  · intro uid hk
    refine ⟨?_, ?_⟩
    · intro hg
      simp [isRateLimited, hk, hg]
    · intro e hg
      refine ⟨?_, ?_, ?_⟩
      · by_cases hlt : now - e.lastNotification < (getMinInterval n.priority : Int)
        · simp [isRateLimited, hk, hg, hlt]
        · simp [isRateLimited, hk, hg, hlt]
      · intro hlt
        simp [isRateLimited, hk, hg, hlt]
      · intro hge
        simp [isRateLimited, hk, hg, not_lt.mpr hge]
  · intro s et data ts id hs h
    subst hs
    have hlim := isRateLimited_true_eq s.limits
      (prioritize (generateNotification et data ts id)) now h
    simp [publish, hlim]

/-- Closed witness for C2, the spec example: a MEDIUM notification for a
recipient last admitted 10s ago is rejected with the state untouched, while
31s apart it is admitted with the entry refreshed. -/
theorem C2_rate_limit_gate_witness :
    isRateLimited [(Val.vStr "u1", ⟨0, 1⟩)]
      { id := "a", type := "x", timestamp := "t",
        data := [("userId", Val.vStr "u1")], title := "", message := "",
        priority := 2, channels := [Channel.in_app], metadata := [] } 10000
      = (true, [(Val.vStr "u1", ⟨0, 1⟩)]) ∧
    isRateLimited [(Val.vStr "u1", ⟨0, 1⟩)]
      { id := "a", type := "x", timestamp := "t",
        data := [("userId", Val.vStr "u1")], title := "", message := "",
        priority := 2, channels := [Channel.in_app], metadata := [] } 31000
      = (false, mapSet [(Val.vStr "u1", ⟨0, 1⟩)] (Val.vStr "u1") ⟨31000, 2⟩) :=
  ⟨(((C2_rate_limit_gate _ _ 10000).2.1 (Val.vStr "u1") (by rfl)).2 ⟨0, 1⟩
      (by rfl)).2.1 (by decide),
   (((C2_rate_limit_gate _ _ 31000).2.1 (Val.vStr "u1") (by rfl)).2 ⟨0, 1⟩
      (by rfl)).2.2 (by decide)⟩

/-- One `publish` of a recognized proposal-created event with an empty
payload (no user id, so never rate limited), used to drive the scheduler. -/
def c3publishStep (s : EngineState) (i : Nat) : EngineState :=
  (publish s "proposal_created" [] 0 "t" (toString i)).1

/-- C3 counterexample: after ten admissions bring the queue exactly to
`batchSize`, nothing has been flushed — all ten notifications are still
queued (a size-triggered flush would have emptied the queue). -/
theorem C3_counterexample_no_size_trigger :
    ((List.range batchSize).foldl c3publishStep initialState).queue.length
      = batchSize ∧
    ((List.range batchSize).foldl c3publishStep initialState).queue.length ≠ 0 := by
  have h : ((List.range batchSize).foldl c3publishStep initialState).queue.length
      = batchSize := by decide
  exact ⟨h, by rw [h]; decide⟩

/-- C3 (amended).  `publish` never flushes: it either drops the notification
(rate limited) or appends it to the queue — even when that brings the queue
to `batchSize`, no flush happens at that point; the queue never shrinks
during `publish`, and flushing is done only by `processBatch` when the
batch timer or the periodic sweep fires. -/
theorem C3_no_immediate_flush_at_batchSize (s : EngineState) (et : String)
    (data : Obj) (now : Int) (ts id : String) :
    ((publish s et data now ts id).1.queue = s.queue ∨
     (publish s et data now ts id).1.queue
       = s.queue ++ [prioritize (generateNotification et data ts id)]) ∧
    s.queue.length ≤ (publish s et data now ts id).1.queue.length := by
  cases hr : isRateLimited s.limits (prioritize (generateNotification et data ts id)) now with
  | mk b limits' =>
    cases b
    · refine ⟨Or.inr ?_, ?_⟩ <;> simp [publish, hr]
    · refine ⟨Or.inl ?_, ?_⟩ <;> simp [publish, hr]

/-- C8.  A flush pops exactly the `min(batchSize, length)` oldest
notifications FIFO (`take`), leaves the remainder in order (`drop`), and on
an empty queue is a no-op leaving the whole state unchanged. -/
theorem C8_flush_pops_fifo (s : EngineState) :
    (s.queue = [] → processBatch s = (s, [])) ∧
    (processBatch s).2 = s.queue.take batchSize ∧
    (processBatch s).1.queue = s.queue.drop batchSize ∧
    (processBatch s).2.length = min batchSize s.queue.length ∧
    (processBatch s).2 ++ (processBatch s).1.queue = s.queue := by
  by_cases h : s.queue.isEmpty
  · have hq : s.queue = [] := by simpa [List.isEmpty_iff] using h
    exact ⟨fun _ => by simp [processBatch, h],
      by simp [processBatch, h, hq], by simp [processBatch, h, hq],
      by simp [processBatch, h, hq], by simp [processBatch, h, hq]⟩
  · have hq : ¬ s.queue = [] := by simpa [List.isEmpty_iff] using h
    exact ⟨fun hnil => absurd hnil hq,
      by simp [processBatch, h], by simp [processBatch, h],
      by simp [processBatch, h, List.length_take],
      by simp [processBatch, h, List.take_append_drop]⟩

/-- Closed witness for C8: flushing the empty initial state is a no-op. -/
theorem C8_flush_pops_fifo_witness :
    processBatch initialState = (initialState, []) :=
  (C8_flush_pops_fifo initialState).1 rfl

/-- Appending to one channel of a grouped batch extends exactly that sub-batch. -/
theorem groupLookup_addToGroup (g : List (Channel × List Notification))
    (c c' : Channel) (n : Notification) :
    groupLookup (addToGroup g c n) c' =
      groupLookup g c' ++ (if c' = c then [n] else []) := by
  induction g with
  | nil =>
    by_cases h : c' = c
    · subst h
      simp [addToGroup, groupLookup]
    · simp only [addToGroup, groupLookup, if_neg (Ne.symm h), if_neg h]
      rfl
  | cons q rest ih =>
    obtain ⟨c0, l0⟩ := q
    by_cases h0 : c0 = c
    · subst h0
      rw [addToGroup, if_pos rfl]
      by_cases h1 : c0 = c'
      · subst h1
        simp [groupLookup]
      · simp only [groupLookup, if_neg h1, if_neg (Ne.symm h1),
          List.append_nil]
    · rw [addToGroup, if_neg h0]
      by_cases h1 : c0 = c'
      · subst h1
        simp [groupLookup, h0]
      · simp only [groupLookup, if_neg h1]
        exact ih

/-- Folding the channel list of one notification appends it to the sub-batch
of every channel it targets, once per occurrence. -/
theorem groupLookup_channelFold (chans : List Channel)
    (g : List (Channel × List Notification)) (n : Notification) (c : Channel) :
    groupLookup (chans.foldl (fun g' ch => addToGroup g' ch n) g) c
      = groupLookup g c ++ List.replicate (chans.count c) n := by
  induction chans generalizing g with
  | nil => simp
  | cons a rest ih =>
    rw [List.foldl_cons, ih, groupLookup_addToGroup, List.count_cons]
    by_cases h : c = a
    · subst h
      simp [List.replicate_succ]
    · simp [h, Ne.symm h]

/-- The grouped batch, per channel, is the concatenation of each notification
replicated by how often it targets that channel (in original batch order). -/
theorem groupLookup_groupBatch_aux (batch : List Notification)
    (g : List (Channel × List Notification)) (c : Channel) :
    groupLookup
      (batch.foldl
        (fun g0 n => n.channels.foldl (fun g' ch => addToGroup g' ch n) g0) g) c
      = groupLookup g c
        ++ (batch.map (fun n => List.replicate (n.channels.count c) n)).flatten := by
  induction batch generalizing g with
  | nil => simp
  | cons n rest ih =>
    rw [List.foldl_cons, ih, groupLookup_channelFold]
    simp [List.append_assoc]

/-- With duplicate-free channel sets, the fan-out flattening is exactly the
filter to the notifications targeting the channel. -/
theorem flatten_replicate_filter (batch : List Notification) (c : Channel)
    (h : ∀ n ∈ batch, n.channels.Nodup) :
    (batch.map (fun n => List.replicate (n.channels.count c) n)).flatten
      = batch.filter (fun n => decide (c ∈ n.channels)) := by
  induction batch with
  | nil => rfl
  | cons n rest ih =>
    rw [List.map_cons, List.flatten_cons,
      ih (fun m hm => h m (List.mem_cons_of_mem _ hm))]
    by_cases hc : c ∈ n.channels
    · rw [List.count_eq_one_of_mem (h n (List.mem_cons_self _ _)) hc]
      simp [List.filter_cons, hc]
    · rw [List.count_eq_zero_of_not_mem hc]
      simp [List.filter_cons, hc]

/-- With duplicate-free channel sets, the sub-batch of a channel is exactly
the batch filtered to the notifications targeting that channel. -/
theorem groupLookup_groupBatch_filter (batch : List Notification) (c : Channel)
    (h : ∀ n ∈ batch, n.channels.Nodup) :
    groupLookup (groupBatchByChannel batch) c
      = batch.filter (fun n => decide (c ∈ n.channels)) := by
  rw [groupBatchByChannel, groupLookup_groupBatch_aux batch [] c]
  simp only [groupLookup, List.nil_append]
  exact flatten_replicate_filter batch c h

/-- Filtering one priority class through an ordered insertion: the inserted
element lands in front of its own class, the other classes are untouched. -/
theorem filter_orderedInsert (p : Nat) (a : Notification)
    (t : List Notification) :
    (List.orderedInsert prioGE a t).filter (fun x => x.priority == p)
      = if a.priority = p
        then a :: t.filter (fun x => x.priority == p)
        else t.filter (fun x => x.priority == p) := by
  induction t with
  | nil =>
    by_cases hp : a.priority = p <;>
      simp [List.orderedInsert, List.filter_cons, hp]
  | cons b t ih =>
    rw [List.orderedInsert]
    by_cases hr : prioGE a b
    · rw [if_pos hr]
      by_cases hp : a.priority = p <;> simp [List.filter_cons, hp]
    · rw [if_neg hr]
      by_cases hp : a.priority = p
      · have hbp : ¬ b.priority = p := by
          unfold prioGE at hr
          omega
        simp [List.filter_cons, hbp, ih, hp]
      · simp [List.filter_cons, ih, hp]

/-- Stability of the descending priority sort: every priority class keeps its
original relative order. -/
theorem filter_sortByPriorityDesc (p : Nat) (l : List Notification) :
    (sortByPriorityDesc l).filter (fun x => x.priority == p)
      = l.filter (fun x => x.priority == p) := by
  induction l with
  | nil => rfl
  | cons a l ih =>
    rw [sortByPriorityDesc, List.insertionSort,
      show List.insertionSort prioGE l = sortByPriorityDesc l from rfl,
      filter_orderedInsert]
    by_cases hp : a.priority = p <;> simp [List.filter_cons, hp, ih]

/-- C6.  Channel fan-out: each notification lands in the sub-batch of every
channel of its channel set (a notification with channels `{A, B}` appears in
both), and each sub-batch is sorted by priority descending with equal
priorities kept in original queue order (stable sort). -/
theorem C6_fanout_and_stable_order (batch : List Notification) (c : Channel)
    (h : ∀ n ∈ batch, n.channels.Nodup) :
    groupLookup (groupBatchByChannel batch) c
      = batch.filter (fun n => decide (c ∈ n.channels)) ∧
    List.Sorted prioGE
      (sortByPriorityDesc (groupLookup (groupBatchByChannel batch) c)) ∧
    (sortByPriorityDesc (groupLookup (groupBatchByChannel batch) c)).Perm
      (groupLookup (groupBatchByChannel batch) c) ∧
    (∀ p : Nat,
      (sortByPriorityDesc (groupLookup (groupBatchByChannel batch) c)).filter
          (fun x => x.priority == p)
        = (groupLookup (groupBatchByChannel batch) c).filter
            (fun x => x.priority == p)) :=
  ⟨groupLookup_groupBatch_filter batch c h,
   List.sorted_insertionSort prioGE _,
   List.perm_insertionSort prioGE _,
   fun p => filter_sortByPriorityDesc p _⟩

/-- Concrete two-notification batch: one targets in-app and email, the other
(higher priority) only email. -/
def c6batch : List Notification :=
  [{ id := "a", type := "x", timestamp := "t", data := [], title := "",
     message := "", priority := 1,
     channels := [Channel.in_app, Channel.email], metadata := [] },
   { id := "b", type := "x", timestamp := "t", data := [], title := "",
     message := "", priority := 3, channels := [Channel.email],
     metadata := [] }]

/-- Closed witness for C6 on the email channel of the concrete batch. -/
theorem C6_fanout_and_stable_order_witness :
    groupLookup (groupBatchByChannel c6batch) Channel.email
      = c6batch.filter (fun n => decide (Channel.email ∈ n.channels)) ∧
    (sortByPriorityDesc (groupLookup (groupBatchByChannel c6batch)
        Channel.email)).filter (fun x => x.priority == 1)
      = (groupLookup (groupBatchByChannel c6batch) Channel.email).filter
          (fun x => x.priority == 1) :=
  ⟨(C6_fanout_and_stable_order c6batch Channel.email (by decide)).1,
   (C6_fanout_and_stable_order c6batch Channel.email (by decide)).2.2.2 1⟩

/-- Routing computes, per channel, exactly the outcome of processing the
sub-batch of that channel (and records nothing for absent channels). -/
theorem outcomeAt_mapRoute (senders : SenderMap)
    (g : List (Channel × List Notification)) (c : Channel) :
    outcomeAt (g.map (fun p => (p.1, processChannelBatch senders p.1 p.2))) c
      = if hasChannel g c
        then some (processChannelBatch senders c (groupLookup g c))
        else none := by
  induction g with
  | nil => rfl
  | cons q rest ih =>
    obtain ⟨c0, l0⟩ := q
    rw [List.map_cons]
    by_cases h : c0 = c
    · subst h
      simp [outcomeAt, hasChannel, groupLookup]
    · simp [outcomeAt, hasChannel, groupLookup, h, ih]

/-- A registered sender receives its sorted sub-batch; its result, success
or caught error, becomes the recorded outcome. -/
theorem processChannelBatch_some (senders : SenderMap) (c : Channel)
    (ns : List Notification) (f : List Notification → Except String Unit)
    (hf : senders c = some f) :
    processChannelBatch senders c ns
      = sendOutcomeOf (f (sortByPriorityDesc ns)) := by
  have hred : processChannelBatch senders c ns
      = match senders c with
        | none => SendOutcome.skipped
        | some sender => sendOutcomeOf (sender (sortByPriorityDesc ns)) := by
    unfold processChannelBatch
    cases senders c with
    | none => rfl
    | some g => cases g (sortByPriorityDesc ns) <;> rfl
  rw [hred, hf]

/-- C7.  Channel failures are isolated: the outcome a flush records for a
channel depends only on the sender of that channel (a raising sender
elsewhere cannot affect it); an unregistered channel is skipped, never
fatal; and a registered channel always receives its own sorted sub-batch,
its error being caught rather than propagated. -/
theorem C7_channel_failure_isolation (senders senders' : SenderMap)
    (batch : List Notification) (c : Channel)
    (h : senders c = senders' c) :
    outcomeAt (routeBatch senders batch) c
      = outcomeAt (routeBatch senders' batch) c ∧
    (senders c = none →
      ∀ o : SendOutcome, outcomeAt (routeBatch senders batch) c = some o →
        o = SendOutcome.skipped) ∧
    (∀ f : List Notification → Except String Unit, senders c = some f →
      hasChannel (groupBatchByChannel batch) c = true →
      outcomeAt (routeBatch senders batch) c
        = some (sendOutcomeOf (f (sortByPriorityDesc
            (groupLookup (groupBatchByChannel batch) c))))) := by
  have key : ∀ sm : SenderMap, outcomeAt (routeBatch sm batch) c
      = if hasChannel (groupBatchByChannel batch) c
        then some (processChannelBatch sm c
          (groupLookup (groupBatchByChannel batch) c))
        else none :=
    fun sm => outcomeAt_mapRoute sm (groupBatchByChannel batch) c
  refine ⟨?_, ?_, ?_⟩
  · rw [key senders, key senders']
    by_cases hg : hasChannel (groupBatchByChannel batch) c = true
    · rw [if_pos hg, if_pos hg]
      have hpc : processChannelBatch senders c
          (groupLookup (groupBatchByChannel batch) c)
          = processChannelBatch senders' c
            (groupLookup (groupBatchByChannel batch) c) := by
        unfold processChannelBatch
        rw [h]
      rw [hpc]
    · rw [if_neg hg, if_neg hg]
  · intro hn o ho
    rw [key senders] at ho
    by_cases hg : hasChannel (groupBatchByChannel batch) c = true
    · rw [if_pos hg] at ho
      have hskip : processChannelBatch senders c
          (groupLookup (groupBatchByChannel batch) c) = SendOutcome.skipped := by
        unfold processChannelBatch
        rw [hn]
      rw [hskip] at ho
      exact (Option.some_inj.mp ho).symm
    · rw [if_neg hg] at ho
      exact Option.noConfusion ho
  · intro f hf hg
    rw [key senders, if_pos hg, processChannelBatch_some senders c _ f hf]

/-- A sender registry where email succeeds and slack raises. -/
def c7senders : SenderMap := fun ch =>
  match ch with
  | Channel.email => some (fun _ => Except.ok ())
  | Channel.slack => some (fun _ => Except.error "boom")
  | _ => none

/-- A one-notification batch targeting both email and slack. -/
def c7batch : List Notification :=
  [{ id := "a", type := "x", timestamp := "t", data := [], title := "",
     message := "", priority := 2,
     channels := [Channel.email, Channel.slack], metadata := [] }]

/-- Closed witness for C7: the slack sender raises, yet the email sub-batch
of the same flush is still delivered. -/
theorem C7_channel_failure_isolation_witness :
    outcomeAt (routeBatch c7senders c7batch) Channel.email
      = some SendOutcome.sent ∧
    outcomeAt (routeBatch c7senders c7batch) Channel.slack
      = some (SendOutcome.failed "boom") :=
  ⟨((C7_channel_failure_isolation c7senders c7senders c7batch Channel.email
      rfl).2.2 _ rfl (by rfl)).trans rfl,
   ((C7_channel_failure_isolation c7senders c7senders c7batch Channel.slack
      rfl).2.2 _ rfl (by rfl)).trans rfl⟩

/-- Reading the recorded prioritization reason off the adjusted metadata. -/
theorem getD_reason (x y : Val) (m : Obj) :
    getD (("originalPriority", x) :: ("prioritizationReason", y) :: m)
      "prioritizationReason" = y := rfl

/-- Rule conditions that agree pointwise lead the loop to the same priority
and the same recorded reason. -/
theorem applyRules_congr (rules : List Rule) (n₁ n₂ : Notification)
    (hp : n₁.priority = n₂.priority) (hm : n₁.metadata = n₂.metadata)
    (hc : ∀ r ∈ rules, r.condition n₁ = r.condition n₂) :
    (applyRules rules n₁).priority = (applyRules rules n₂).priority ∧
    getD (applyRules rules n₁).metadata "prioritizationReason"
      = getD (applyRules rules n₂).metadata "prioritizationReason" := by
  induction rules with
  | nil => exact ⟨hp, by simp [applyRules, hm]⟩
  | cons r rest ih =>
    have hcr : r.condition n₁ = r.condition n₂ :=
      hc r (List.mem_cons_self _ _)
    by_cases h1 : r.condition n₁ = true
    · have h2 : r.condition n₂ = true := hcr ▸ h1
      rw [applyRules, if_pos h1, applyRules, if_pos h2]
      exact ⟨by simp [hp], by rw [getD_reason, getD_reason]⟩
    · have h2 : ¬ r.condition n₂ = true := hcr ▸ h1
      rw [applyRules, if_neg h1, applyRules, if_neg h2]
      exact ih (fun r' hr' => hc r' (List.mem_cons_of_mem _ hr'))

/-- The notification with a high-value data payload. -/
def c9rich : Notification :=
  { id := "a", type := "x", timestamp := "t",
    data := [("estimatedValue", Val.vNum 2000000)], title := "", message := "",
    priority := 1, channels := [Channel.in_app], metadata := [] }

/-- The same notification with the payload stripped: it agrees with `c9rich`
on priority, type and metadata, but not on `data`. -/
def c9poor : Notification := { c9rich with data := [] }

/-- C9 counterexample: two notifications agreeing on priority, eventKind and
metadata are prioritized differently, because the high-value rule reads the
`data` payload (`data.estimatedValue`), not the metadata. -/
theorem C9_counterexample_data_dependence :
    c9rich.priority = c9poor.priority ∧
    c9rich.type = c9poor.type ∧
    c9rich.metadata = c9poor.metadata ∧
    (prioritize c9rich).priority ≠ (prioritize c9poor).priority :=
  ⟨rfl, rfl, rfl, by decide⟩

/-- C9 (amended).  Rule predicates read only priority, eventKind, metadata
and the `data` payload (the high-value rule reads `data.estimatedValue`):
two notifications agreeing on those four fields — whatever their other
fields — receive the same rule, the same resulting priority and the same
recorded prioritization reason. -/
theorem C9_rules_read_limited_fields (n₁ n₂ : Notification)
    (hp : n₁.priority = n₂.priority) (ht : n₁.type = n₂.type)
    (hm : n₁.metadata = n₂.metadata) (hd : n₁.data = n₂.data) :
    (prioritize n₁).priority = (prioritize n₂).priority ∧
    getD (prioritize n₁).metadata "prioritizationReason"
      = getD (prioritize n₂).metadata "prioritizationReason" := by
  refine applyRules_congr aiRules n₁ n₂ hp hm ?_
  intro r hr
  simp only [aiRules, List.mem_cons, List.not_mem_nil, or_false] at hr
  rcases hr with rfl | rfl | rfl | rfl | rfl | rfl <;>
    simp only [hp, ht, hm, hd]

/-- Closed witness for the amended C9: notifications differing only in their
id are prioritized identically. -/
theorem C9_rules_read_limited_fields_witness :
    (prioritize c9rich).priority
      = (prioritize { c9rich with id := "b" }).priority ∧
    getD (prioritize c9rich).metadata "prioritizationReason"
      = getD (prioritize { c9rich with id := "b" }).metadata
          "prioritizationReason" :=
  C9_rules_read_limited_fields _ _ rfl rfl rfl rfl

end NotifSys
